import Mathlib

/-!
Shallow embedding of the extension-host telemetry core
(`ExtHostTelemetry` / `ExtHostTelemetryLogger`) of this repository,
together with theorems settling the specification claims about it.

Conventions:
* Machine state (`this._level`, `this._telemetryLoggers`, ...) becomes an
  explicit state record; methods become functions from state to state.
* Calls into the external sender / trace sink become an explicit list of
  effects returned alongside the new state.
* Functions of this repository that are imported by the source file but do
  not live under the translated sources (`mixin`, `cleanData`,
  `cleanRemoteAuthority`/`getRemoteName`, the `TelemetryLevel` enum, date
  parsing) are modelled from the spec; each carries a doc comment saying so.
-/

set_option autoImplicit false

namespace ExtHostTelemetrySpec

/-- Modelled from the spec: `TelemetryLevel` is imported from
`vs/platform/telemetry/common/telemetry`, which is not among the translated
sources.  The spec describes it as the ordered enum
NONE < CRASH < ERROR < USAGE. -/
inductive TelemetryLevel where
  | NONE
  | CRASH
  | ERROR
  | USAGE
  deriving DecidableEq, Repr

/-- Numeric value of a level, ordered as in the spec (NONE < CRASH < ERROR < USAGE). -/
def TelemetryLevel.toNat : TelemetryLevel → Nat
  | .NONE => 0
  | .CRASH => 1
  | .ERROR => 2
  | .USAGE => 3

/-- The TypeScript comparison `level >= threshold` on the numeric enum. -/
def levelGe (a b : TelemetryLevel) : Bool :=
  b.toNat ≤ a.toNat

/-- The product configuration `{ usage: boolean; error: boolean }`. -/
structure ProductConfig where
  usage : Bool
  error : Bool
  deriving DecidableEq, Repr

/-- The `vscode.TelemetryConfiguration` record returned by `getTelemetryDetails`. -/
structure TelemetryConfiguration where
  isCrashEnabled : Bool
  isErrorsEnabled : Bool
  isUsageEnabled : Bool
  deriving DecidableEq, Repr

/-- The `{ isUsageEnabled, isErrorsEnabled }` snapshot cached by each logger. -/
structure Enablements where
  isUsageEnabled : Bool
  isErrorsEnabled : Bool
  deriving DecidableEq, Repr

/-- Property values occurring in telemetry payloads (`Record<string, any>`,
restricted to the value shapes the source actually produces). -/
inductive TVal where
  | str (s : String)
  | num (n : Int)
  | boolean (b : Bool)
  deriving DecidableEq, Repr

/-- A `Record<string, any>` of properties, as an association list in insertion
order (first entry for a key is the one JavaScript property access sees,
because every merge below only adds keys that are not yet present). -/
abbrev Props := List (String × TVal)

/-- First value stored under a key, i.e. JavaScript property lookup. -/
def getProp (m : Props) (k : String) : Option TVal :=
  (m.find? fun kv => kv.1 == k).map (·.2)

/-- An event payload: either a flat property record, or an envelope splitting
`properties` from numeric `measurements` (the source tests `'properties' in data`). -/
inductive TData where
  | flat (props : Props)
  | envelope (properties : Props) (measurements : List (String × Int))
  deriving DecidableEq, Repr

/-- A structured JavaScript `Error` value, kept opaque but for its message. -/
structure JSError where
  message : String
  deriving DecidableEq, Repr

/-- The `Error | string` union taken by `logError`. -/
inductive ErrorOrString where
  | str (s : String)
  | err (e : JSError)
  deriving DecidableEq, Repr

/-- The sender capability; its entry points (`sendEventData`, `sendErrorData`,
`flush`) are recorded as effects, so the model only keeps whether `flush`
is present (`typeof sender.flush !== 'undefined'`). -/
structure Sender where
  hasFlush : Bool
  deriving DecidableEq, Repr

/-- Observable calls a logger makes into its sender or the local trace sink. -/
inductive LoggerEffect where
  | sendEventData (eventName : String) (data : TData)
  | sendErrorData (error : JSError) (data : Option TData)
  | flush
  | trace (eventName : String) (data : TData)
  deriving DecidableEq, Repr

/-- `vscode.TelemetryLoggerOptions`. -/
structure TelemetryLoggerOptions where
  ignoreUnhandledErrors : Option Bool := none
  ignoreBuiltInCommonProperties : Option Bool := none
  additionalCommonProperties : Option Props := none
  deriving DecidableEq, Repr

/-- `IExtensionDescription`, restricted to the fields the source reads. -/
structure ExtensionDescription where
  identifierValue : String
  publisher : String
  name : String
  version : String
  deriving DecidableEq, Repr

/-- Modelled from the spec: `UIKind` is imported from the extension host
protocol, not among the translated sources; the source only distinguishes
Web, Desktop and a default case. -/
inductive UIKind where
  | Web
  | Desktop
  | Other
  deriving DecidableEq, Repr

/-- The slice of `IExtHostInitDataService` the source reads, plus the ambient
clock and date parsing used by `isNewAppInstall` (`Date.now()` and
`new Date(s).getTime()` are host environment facilities; they are passed in
as data so the embedding stays pure).  `sanitizedRemoteName` is modelled from
the spec: `getRemoteName`/`cleanRemoteAuthority` are not among the translated
sources and the spec only says the remote-connection name is sanitized. -/
structure InitData where
  machineId : String
  sessionId : String
  version : String
  firstSessionDate : String
  appHost : String
  uiKind : UIKind
  sanitizedRemoteName : String
  nowMs : Int
  parseDateMs : String → Option Int

/-- `isNewAppInstall` (source lines 308-311): install age below one day;
an unparseable date (`NaN` age) yields `false`. -/
def isNewAppInstall (nowMs : Int) (parseDateMs : String → Option Int)
    (firstSessionDate : String) : Bool :=
  match parseDateMs firstSessionDate with
  | none => false
  | some t => nowMs - t < 1000 * 60 * 60 * 24

/-- Modelled from the spec: `mixin` is imported from `vs/base/common/objects`,
which is not among the translated sources.  Per the spec ("mixes in, in order
(later does not overwrite earlier)"), keys already present in `destination`
keep their value; keys only present in `source` are added. -/
def mixin (destination source : Props) : Props :=
  destination ++ source.filter fun kv => !(destination.any fun kv0 => kv0.1 == kv.1)

/-- Modelled from the spec: redaction of a single string value.  `cleanData`
comes from `vs/platform/telemetry/common/telemetryUtils`, not among the
translated sources; the spec says it strips recognized sensitive patterns
(file-system paths, user/machine identifiers, emails) from property values.
We model the path pattern: any value containing a slash is replaced. -/
def cleanString (s : String) : String :=
  if s.contains '/' then "<REDACTED: user-file-path>" else s

/-- Modelled from the spec: redaction of one property value; only strings can
match the sensitive patterns, numbers and booleans pass through. -/
def cleanValue : TVal → TVal
  | .str s => .str (cleanString s)
  | v => v

/-- Modelled from the spec: `cleanData` applies the redaction to every
property value (the source passes an empty `cleanUpPatterns` list). -/
def cleanData (p : Props) : Props :=
  p.map fun kv => (kv.1, cleanValue kv.2)

/-- State of an `ExtHostTelemetryLogger`.  `sender` is `none` once disposed;
`apiObject` records whether `_apiObject` has been materialized (the
`apiTelemetryLogger` getter ran). -/
structure ExtHostTelemetryLogger where
  ignoreUnhandledExtHostErrors : Bool
  ignoreBuiltinCommonProperties : Bool
  additionalCommonProperties : Option Props
  extension : ExtensionDescription
  inLoggingOnlyMode : Bool
  commonProperties : Props
  telemetryEnablements : Enablements
  apiObject : Bool
  sender : Option Sender
  deriving DecidableEq, Repr

namespace ExtHostTelemetryLogger

/-- The constructor (source lines 187-201): options default to `false`/absent,
the enablement snapshot is copied, `_apiObject` starts unset. -/
def mk' (sender : Sender) (options : Option TelemetryLoggerOptions)
    (extension : ExtensionDescription) (inLoggingOnlyMode : Bool)
    (commonProperties : Props) (telemetryEnablements : Enablements) :
    ExtHostTelemetryLogger :=
  { ignoreUnhandledExtHostErrors :=
      ((options.map (·.ignoreUnhandledErrors)).join).getD false
    ignoreBuiltinCommonProperties :=
      ((options.map (·.ignoreBuiltInCommonProperties)).join).getD false
    additionalCommonProperties := (options.map (·.additionalCommonProperties)).join
    extension := extension
    inLoggingOnlyMode := inLoggingOnlyMode
    commonProperties := commonProperties
    telemetryEnablements := telemetryEnablements
    apiObject := false
    sender := some sender }

/-- `isDisposed` (source lines 292-294): true iff the sender reference is gone. -/
def isDisposed (l : ExtHostTelemetryLogger) : Bool :=
  l.sender.isNone

/-- `updateTelemetryEnablements` (source lines 203-208): replaces the cached
snapshot and fires the per-logger change event, but only when the public
api object exists.  The returned `Bool` says whether the event fired. -/
def updateTelemetryEnablements (l : ExtHostTelemetryLogger)
    (isUsageEnabled isErrorsEnabled : Bool) : ExtHostTelemetryLogger × Bool :=
  if l.apiObject then
    ({ l with telemetryEnablements := ⟨isUsageEnabled, isErrorsEnabled⟩ }, true)
  else
    (l, false)

/-- The `apiTelemetryLogger` getter (source lines 272-290): materializes and
caches the frozen public handle.  In the embedding only the `_apiObject`
flag is observable (the handle closes over the logger state by reference). -/
def apiTelemetryLogger (l : ExtHostTelemetryLogger) : ExtHostTelemetryLogger :=
  { l with apiObject := true }

/-- `mixInCommonPropsAndCleanData` (source lines 210-233): select the
`properties` component of an envelope (or the flat record), redact it, mix in
the additional static properties and then the builtin common properties, and
put the result back; measurements are left alone. -/
def mixInCommonPropsAndCleanData (l : ExtHostTelemetryLogger) (data : TData) :
    TData :=
  let updatedData :=
    match data with
    | .flat props => props
    | .envelope properties _ => properties
  let updatedData := cleanData updatedData
  let updatedData :=
    match l.additionalCommonProperties with
    | some additional => mixin updatedData additional
    | none => updatedData
  let updatedData :=
    if !l.ignoreBuiltinCommonProperties then mixin updatedData l.commonProperties
    else updatedData
  match data with
  | .flat _ => .flat updatedData
  | .envelope _ measurements => .envelope updatedData measurements

/-- `logEvent` (source lines 235-251): no-op when disposed; qualifies the
event name (publisher-prefixed unless the publisher is `vscode`), enriches
the payload, sends unless in logging-only mode, and always traces. -/
def logEvent (l : ExtHostTelemetryLogger) (eventName : String)
    (data : Option TData) : List LoggerEffect :=
  match l.sender with
  | none => []
  | some _ =>
    let eventName :=
      if l.extension.publisher == "vscode" then
        l.extension.name ++ "/" ++ eventName
      else
        l.extension.identifierValue ++ "/" ++ eventName
    let data := l.mixInCommonPropsAndCleanData (data.getD (.flat []))
    (if !l.inLoggingOnlyMode then [LoggerEffect.sendEventData eventName data]
     else []) ++ [LoggerEffect.trace eventName data]

/-- `logUsage` (source lines 253-258): gated on the cached `isUsageEnabled`. -/
def logUsage (l : ExtHostTelemetryLogger) (eventName : String)
    (data : Option TData) : List LoggerEffect :=
  if !l.telemetryEnablements.isUsageEnabled then []
  else l.logEvent eventName data

/-- `logError` (source lines 260-270): gated on the cached `isErrorsEnabled`
and on the sender being present; a string goes through `logEvent`, a
structured error goes straight to `sendErrorData`. -/
def logError (l : ExtHostTelemetryLogger) (arg : ErrorOrString)
    (data : Option TData) : List LoggerEffect :=
  if !l.telemetryEnablements.isErrorsEnabled || l.sender.isNone then []
  else
    match arg with
    | .str eventName => l.logEvent eventName data
    | .err e => [LoggerEffect.sendErrorData e data]

/-- `dispose` (source lines 296-305): when a flush capability exists, clear
the sender, invoke flush (fire-and-forget) and clear the api object;
otherwise just clear the sender. -/
def dispose (l : ExtHostTelemetryLogger) : ExtHostTelemetryLogger × List LoggerEffect :=
  if l.sender.any (·.hasFlush) then
    ({ l with sender := none, apiObject := false }, [LoggerEffect.flush])
  else
    ({ l with sender := none }, [])

end ExtHostTelemetryLogger

/-- Lookup in the `Map<string, ExtHostTelemetryLogger>` registry (association
list with at most one entry per key, first match wins). -/
def getLogger (m : List (String × ExtHostTelemetryLogger)) (k : String) :
    Option ExtHostTelemetryLogger :=
  (m.find? fun kv => kv.1 == k).map (·.2)

/-- `Map.set`: overwrite the entry for `k` when present, else append it. -/
def setLogger (m : List (String × ExtHostTelemetryLogger)) (k : String)
    (v : ExtHostTelemetryLogger) : List (String × ExtHostTelemetryLogger) :=
  if m.any fun kv => kv.1 == k then
    m.map fun kv => if kv.1 == k then (k, v) else kv
  else
    m ++ [(k, v)]

/-- `Map.delete`. -/
def delLogger (m : List (String × ExtHostTelemetryLogger)) (k : String) :
    List (String × ExtHostTelemetryLogger) :=
  m.filter fun kv => kv.1 != k

/-- Notifications fired by the coordinator during a level change, in order:
the per-logger enable-states events fired from inside
`updateTelemetryEnablements`, then `onDidChangeTelemetryEnabled`, then
`onDidChangeTelemetryConfiguration`. -/
inductive CoordEvent where
  | loggerEnableStatesChanged (key : String)
  | didChangeTelemetryEnabled (enabled : Bool)
  | didChangeTelemetryConfiguration (details : TelemetryConfiguration)
  deriving DecidableEq, Repr

/-- State of the `ExtHostTelemetry` coordinator (the mutable fields of the
class; the output logger and emitters are represented by the event lists the
operations return, and `updateLoggerVisibility` is an effect on the external
logger service with no bearing on this state). -/
structure ExtHostTelemetry where
  productConfig : ProductConfig := ⟨true, true⟩
  level : TelemetryLevel := .NONE
  telemetryIsSupported : Bool := false
  oldTelemetryEnablement : Option Bool := none
  inLoggingOnlyMode : Bool := false
  initData : InitData
  telemetryLoggers : List (String × ExtHostTelemetryLogger) := []

namespace ExtHostTelemetry

/-- `getTelemetryConfiguration` (source lines 63-65): `_level === USAGE`. -/
def getTelemetryConfiguration (s : ExtHostTelemetry) : Bool :=
  s.level == .USAGE

/-- `getTelemetryDetails` (source lines 67-73). -/
def getTelemetryDetails (s : ExtHostTelemetry) : TelemetryConfiguration :=
  { isCrashEnabled := levelGe s.level .CRASH
    isErrorsEnabled :=
      if s.productConfig.error then levelGe s.level .ERROR else false
    isUsageEnabled :=
      if s.productConfig.usage then levelGe s.level .USAGE else false }

/-- `getBuiltInCommonProperties` (source lines 97-123), in insertion order. -/
def getBuiltInCommonProperties (s : ExtHostTelemetry)
    (extension : ExtensionDescription) : Props :=
  [("common.extname", .str (extension.publisher ++ "." ++ extension.name)),
   ("common.extversion", .str extension.version),
   ("common.vscodemachineid", .str s.initData.machineId),
   ("common.vscodesessionid", .str s.initData.sessionId),
   ("common.vscodeversion", .str s.initData.version),
   ("common.isnewappinstall",
     .boolean (isNewAppInstall s.initData.nowMs s.initData.parseDateMs
       s.initData.firstSessionDate)),
   ("common.product", .str s.initData.appHost),
   ("common.uikind",
     .str (match s.initData.uiKind with
           | .Web => "web"
           | .Desktop => "desktop"
           | .Other => "unknown")),
   ("common.remotename", .str s.initData.sanitizedRemoteName)]

/-- `instantiateLogger` (source lines 75-88): build the logger from the
current derived enablement, register it, and return its public handle — the
getter runs before the call returns, and the registry holds the same object
by reference, so the stored logger has its api object materialized. -/
def instantiateLogger (s : ExtHostTelemetry) (extension : ExtensionDescription)
    (sender : Sender) (options : Option TelemetryLoggerOptions) :
    ExtHostTelemetry × ExtHostTelemetryLogger :=
  let telemetryDetails := s.getTelemetryDetails
  let logger := ExtHostTelemetryLogger.mk' sender options extension
    s.inLoggingOnlyMode (s.getBuiltInCommonProperties extension)
    ⟨telemetryDetails.isUsageEnabled, telemetryDetails.isErrorsEnabled⟩
  let logger := logger.apiTelemetryLogger
  ({ s with telemetryLoggers :=
      setLogger s.telemetryLoggers extension.identifierValue logger },
   logger)

/-- `$initializeTelemetryLevel` (source lines 90-95); the product
configuration defaults to `{usage: true, error: true}` when omitted. -/
def initializeTelemetryLevel (s : ExtHostTelemetry) (level : TelemetryLevel)
    (supportsTelemetry : Bool) (productConfig : Option ProductConfig) :
    ExtHostTelemetry :=
  { s with
    level := level
    telemetryIsSupported := supportsTelemetry
    productConfig := productConfig.getD ⟨true, true⟩ }

/-- `$onDidChangeTelemetryLevel` (source lines 125-145): remember the old
`getTelemetryConfiguration` value, set the level, compute the new details,
prune disposed loggers, push the new enablements to every remaining logger,
then fire `onDidChangeTelemetryEnabled` only when the configuration boolean
changed, and always fire `onDidChangeTelemetryConfiguration`. -/
def onDidChangeTelemetryLevel (s : ExtHostTelemetry) (level : TelemetryLevel) :
    ExtHostTelemetry × List CoordEvent :=
  let old := s.getTelemetryConfiguration
  let s1 := { s with oldTelemetryEnablement := some old, level := level }
  let telemetryDetails := s1.getTelemetryDetails
  let pruned := s1.telemetryLoggers.filter fun kv => !kv.2.isDisposed
  let updated := pruned.map fun kv =>
    (kv.1, kv.2.updateTelemetryEnablements telemetryDetails.isUsageEnabled
      telemetryDetails.isErrorsEnabled)
  let pushEvents := updated.filterMap fun kv =>
    if kv.2.2 then some (CoordEvent.loggerEnableStatesChanged kv.1) else none
  let s2 := { s1 with telemetryLoggers := updated.map fun kv => (kv.1, kv.2.1) }
  let enabledEvents :=
    if old != s2.getTelemetryConfiguration then
      [CoordEvent.didChangeTelemetryEnabled s2.getTelemetryConfiguration]
    else []
  (s2, pushEvents ++ enabledEvents ++
    [CoordEvent.didChangeTelemetryConfiguration s2.getTelemetryDetails])

/-- `onExtensionError` (source lines 147-158): absent logger, disposed logger
(pruned on the spot) and opted-out logger are "not handled"; otherwise the
error goes through the logger's `logError` path and the call is "handled".
Returns (new state, handled flag, effects of the forwarded `logError`). -/
def onExtensionError (s : ExtHostTelemetry) (extensionValue : String)
    (error : JSError) : ExtHostTelemetry × Bool × List LoggerEffect :=
  match getLogger s.telemetryLoggers extensionValue with
  | some logger =>
    if logger.isDisposed then
      ({ s with telemetryLoggers := delLogger s.telemetryLoggers extensionValue },
       false, [])
    else if logger.ignoreUnhandledExtHostErrors then
      (s, false, [])
    else
      (s, true, logger.logError (.err error) none)
  | none => (s, false, [])

end ExtHostTelemetry

/-! Concrete data used by the closed scenario theorems and witnesses below. -/

/-- Concrete initialization data for scenarios; the date parser rejects its
input, matching an unparseable first-session date. -/
def sampleInitData : InitData :=
  { machineId := "machine-1"
    sessionId := "session-1"
    version := "1.82.0"
    firstSessionDate := "not-a-date"
    appHost := "desktop"
    uiKind := .Desktop
    sanitizedRemoteName := "none"
    nowMs := 0
    parseDateMs := fun _ => none }

/-- A third-party extension (publisher is not `vscode`). -/
def sampleExtension : ExtensionDescription :=
  { identifierValue := "sample.ext"
    publisher := "sample"
    name := "ext"
    version := "1.0.0" }

/-- Logger configured with an additional static property `foo = 1` while the
builtin common properties carry `foo = 2`, builtins not suppressed. -/
def overlapLogger : ExtHostTelemetryLogger :=
  { ignoreUnhandledExtHostErrors := false
    ignoreBuiltinCommonProperties := false
    additionalCommonProperties := some [("foo", .num 1)]
    extension := sampleExtension
    inLoggingOnlyMode := false
    commonProperties := [("foo", .num 2)]
    telemetryEnablements := ⟨true, true⟩
    apiObject := true
    sender := some ⟨false⟩ }

/-- A live, fully enabled logger whose process runs in logging-only mode. -/
def loggingOnlyLogger : ExtHostTelemetryLogger :=
  { ignoreUnhandledExtHostErrors := false
    ignoreBuiltinCommonProperties := false
    additionalCommonProperties := none
    extension := sampleExtension
    inLoggingOnlyMode := true
    commonProperties := []
    telemetryEnablements := ⟨true, true⟩
    apiObject := true
    sender := some ⟨false⟩ }

/-- A live logger created while usage telemetry was disabled (its cached
snapshot is all-false), with its public handle materialized. -/
def usageDisabledLogger : ExtHostTelemetryLogger :=
  { ignoreUnhandledExtHostErrors := false
    ignoreBuiltinCommonProperties := false
    additionalCommonProperties := none
    extension := sampleExtension
    inLoggingOnlyMode := false
    commonProperties := []
    telemetryEnablements := ⟨false, false⟩
    apiObject := true
    sender := some ⟨false⟩ }

/-- The same logger after the level change to USAGE has been propagated. -/
def usageEnabledLogger : ExtHostTelemetryLogger :=
  { usageDisabledLogger with telemetryEnablements := ⟨true, true⟩ }

/-- Coordinator at level NONE holding the usage-disabled logger. -/
def coordWithDisabledLogger : ExtHostTelemetry :=
  { initData := sampleInitData
    level := .NONE
    telemetryLoggers := [("sample.ext", usageDisabledLogger)] }

/-- A live logger whose cached `isErrorsEnabled` is false and which does not
opt out of unhandled-error forwarding. -/
def errorsDisabledLogger : ExtHostTelemetryLogger :=
  { ignoreUnhandledExtHostErrors := false
    ignoreBuiltinCommonProperties := false
    additionalCommonProperties := none
    extension := sampleExtension
    inLoggingOnlyMode := false
    commonProperties := []
    telemetryEnablements := ⟨true, false⟩
    apiObject := true
    sender := some ⟨false⟩ }

/-- Coordinator holding the errors-disabled logger under its identity. -/
def coordWithErrorsDisabledLogger : ExtHostTelemetry :=
  { initData := sampleInitData
    level := .USAGE
    telemetryLoggers := [("sample.ext", errorsDisabledLogger)] }

/-- Coordinator with an empty logger registry. -/
def emptyCoord : ExtHostTelemetry :=
  { initData := sampleInitData }

/-- Coordinator whose product configuration disables usage telemetry
(`usage := false`), at level NONE. -/
def usageOptOutCoord : ExtHostTelemetry :=
  { initData := sampleInitData, level := .NONE, productConfig := ⟨false, true⟩ }

end ExtHostTelemetrySpec

namespace ExtHostTelemetrySpec

/-! Supporting lemmas about property lookup under the enrichment pipeline. -/

theorem getProp_append (d t : Props) (k : String) :
    getProp (d ++ t) k = ((getProp d k).orElse fun _ => getProp t k) := by
  induction d with
  | nil => simp [getProp]
  | cons kv d ih =>
    by_cases h : kv.1 == k
    · simp [getProp, List.find?, h]
    · simpa [getProp, List.find?, h] using ih

theorem getProp_some_mixin (d s : Props) (k : String) (v : TVal)
    (h : getProp d k = some v) : getProp (mixin d s) k = some v := by
  simp [mixin, getProp_append, h, Option.orElse]

theorem getProp_cleanData (p : Props) (k : String) :
    getProp (cleanData p) k = (getProp p k).map cleanValue := by
  induction p with
  | nil => simp [getProp, cleanData]
  | cons kv p ih =>
    by_cases h : kv.1 == k
    · simp [getProp, cleanData, List.find?, h]
    · simpa [getProp, cleanData, List.find?, h] using ih

theorem getProp_none_any (d : Props) (k : String) (h : getProp d k = none) :
    (d.any fun kv0 => kv0.1 == k) = false := by
  induction d with
  | nil => rfl
  | cons kv d ih =>
    by_cases hk : (kv.1 == k) = true
    · exfalso
      simp [getProp, List.find?, hk] at h
    · have hk' : (kv.1 == k) = false := Bool.eq_false_iff.2 hk
      have h' : getProp d k = none := by
        simpa [getProp, List.find?, hk'] using h
      simp [List.any_cons, hk', ih h']

theorem getProp_none_mixin (d s : Props) (k : String)
    (h : getProp d k = none) : getProp (mixin d s) k = getProp s k := by
  have hd := getProp_none_any d k h
  rw [mixin, getProp_append, h]
  simp only [Option.orElse]
  induction s with
  | nil => rfl
  | cons kv s ih =>
    by_cases hk : (kv.1 == k) = true
    · have hkv : kv.1 = k := eq_of_beq hk
      have hany : (d.any fun kv0 => kv0.1 == kv.1) = false := by
        rw [hkv]; exact hd
      simp [getProp, List.find?, hk, List.filter, hany]
    · by_cases hp : (d.any fun kv0 => kv0.1 == kv.1) = true
      · simpa [getProp, List.find?, hk, List.filter, hp] using ih
      · have hp' : (d.any fun kv0 => kv0.1 == kv.1) = false :=
          Bool.eq_false_iff.2 hp
        simpa [getProp, List.find?, hk, List.filter, hp'] using ih

end ExtHostTelemetrySpec

namespace ExtHostTelemetrySpec

/-! Further supporting lemmas about the logger operations. -/

theorem updateTelemetryEnablements_of_apiObject (l : ExtHostTelemetryLogger)
    (u e : Bool) (h : l.apiObject = true) :
    l.updateTelemetryEnablements u e
      = ({ l with telemetryEnablements := ⟨u, e⟩ }, true) := by
  simp [ExtHostTelemetryLogger.updateTelemetryEnablements, h]

theorem logUsage_ne_nil_of_enabled (l : ExtHostTelemetryLogger) (en : String)
    (d : Option TData) (hu : l.telemetryEnablements.isUsageEnabled = true)
    (hs : l.sender.isNone = false) : l.logUsage en d ≠ [] := by
  cases hsnd : l.sender with
  | none => rw [hsnd] at hs; simp at hs
  | some snd =>
    simp [ExtHostTelemetryLogger.logUsage, ExtHostTelemetryLogger.logEvent, hu, hsnd]

/-! The claims. -/

/-- C1, counterexample: the claim that `getTelemetryConfiguration()` returns
true iff `P.usage && L >= USAGE` (and always equals the `isUsageEnabled`
field of `getTelemetryDetails()`) is false on the code.  With the product
configuration `usage := false` and level USAGE, `getTelemetryConfiguration`
returns `true` while `P.usage && L >= USAGE` — and the `isUsageEnabled`
field — are `false`: the method reads only the level. -/
theorem getTelemetryConfiguration_ignores_productConfig :
    ExtHostTelemetry.getTelemetryConfiguration
      { initData := sampleInitData, level := .USAGE, productConfig := ⟨false, true⟩ } = true
    ∧ ((false : Bool) && levelGe .USAGE .USAGE) = false
    ∧ (ExtHostTelemetry.getTelemetryDetails
        { initData := sampleInitData, level := .USAGE,
          productConfig := ⟨false, true⟩ }).isUsageEnabled = false :=
  ⟨rfl, rfl, rfl⟩

/-- C1, amended: for every coordinator state — with no assumption on the
product configuration — `getTelemetryConfiguration()` equals the
level-at-least-USAGE boolean (since USAGE is the top level, equivalently
level-equals-USAGE); and whenever `P.usage` is true it coincides with the
`isUsageEnabled` field of `getTelemetryDetails()`. -/
theorem getTelemetryConfiguration_spec (s : ExtHostTelemetry) :
    s.getTelemetryConfiguration = levelGe s.level .USAGE
    ∧ (s.productConfig.usage = true →
        s.getTelemetryConfiguration = s.getTelemetryDetails.isUsageEnabled) := by
  obtain ⟨pc, lvl, sup, old, lom, init, lgs⟩ := s
  constructor
  · cases lvl <;> rfl
  · intro h
    simp only [ExtHostTelemetry.getTelemetryConfiguration,
      ExtHostTelemetry.getTelemetryDetails]
    rw [h]
    cases lvl <;> rfl

/-- C1, witness: the unconditional half at a concrete coordinator whose
product configuration disables usage telemetry, and the conditional half at
a concrete coordinator with the default product configuration. -/
theorem getTelemetryConfiguration_spec_witness :
    ExtHostTelemetry.getTelemetryConfiguration usageOptOutCoord
      = levelGe usageOptOutCoord.level .USAGE
    ∧ ExtHostTelemetry.getTelemetryConfiguration emptyCoord
      = (ExtHostTelemetry.getTelemetryDetails emptyCoord).isUsageEnabled :=
  ⟨(getTelemetryConfiguration_spec usageOptOutCoord).1,
   (getTelemetryConfiguration_spec emptyCoord).2 rfl⟩

/-- C2: `getTelemetryDetails()` returns exactly
`{isCrashEnabled := L >= CRASH, isErrorsEnabled := P.error && L >= ERROR,
isUsageEnabled := P.usage && L >= USAGE}`; in particular with the default
product configuration `{usage := true, error := true}`, level NONE yields
all three fields false and level USAGE yields all three true. -/
theorem getTelemetryDetails_spec (s : ExtHostTelemetry) :
    s.getTelemetryDetails =
      { isCrashEnabled := levelGe s.level .CRASH
        isErrorsEnabled := s.productConfig.error && levelGe s.level .ERROR
        isUsageEnabled := s.productConfig.usage && levelGe s.level .USAGE }
    ∧ ExtHostTelemetry.getTelemetryDetails
        { initData := sampleInitData, level := .NONE } = ⟨false, false, false⟩
    ∧ ExtHostTelemetry.getTelemetryDetails
        { initData := sampleInitData, level := .USAGE } = ⟨true, true, true⟩ := by
  refine ⟨?_, rfl, rfl⟩
  cases hpe : s.productConfig.error <;> cases hpu : s.productConfig.usage <;>
    simp [ExtHostTelemetry.getTelemetryDetails, hpe, hpu]

/-- C3: after `$onDidChangeTelemetryLevel` returns, every logger remaining in
the registry is live (all disposed entries were pruned) and its cached
snapshot equals the coordinator's newly derived enablement — so it is never
more permissive than the current derived enablement; and when the new
derived enablement has usage on, every remaining logger accepts `logUsage`
immediately (the call reaches the sender/trace pipeline and is not dropped).
The hypothesis — every registered logger has its public handle
materialized — is established by `instantiateLogger`, which returns
`logger.apiTelemetryLogger` after registering the logger. -/
theorem onLevelChange_sync (s : ExtHostTelemetry) (lv : TelemetryLevel)
    (hapi : ∀ kl ∈ s.telemetryLoggers, (kl.2).apiObject = true) :
    ∀ kl ∈ (s.onDidChangeTelemetryLevel lv).1.telemetryLoggers,
      (kl.2).isDisposed = false
      ∧ (kl.2).telemetryEnablements =
          ⟨((s.onDidChangeTelemetryLevel lv).1.getTelemetryDetails).isUsageEnabled,
           ((s.onDidChangeTelemetryLevel lv).1.getTelemetryDetails).isErrorsEnabled⟩
      ∧ (((s.onDidChangeTelemetryLevel lv).1.getTelemetryDetails).isUsageEnabled = true →
          ∀ en d, (kl.2).logUsage en d ≠ []) := by
  intro kl hkl
  simp only [ExtHostTelemetry.onDidChangeTelemetryLevel, List.mem_map,
    List.mem_filter] at hkl
  obtain ⟨a, ⟨b, ⟨hmem, hlive⟩, hab⟩, hakl⟩ := hkl
  subst hab
  subst hakl
  have hlive' : b.2.sender.isNone = false := by
    simp only [ExtHostTelemetryLogger.isDisposed, Bool.not_eq_true'] at hlive
    exact hlive
  rw [updateTelemetryEnablements_of_apiObject b.2 _ _ (hapi b hmem)]
  refine ⟨?_, rfl, ?_⟩
  · simp [ExtHostTelemetryLogger.isDisposed, hlive']
  · intro hU en d
    exact logUsage_ne_nil_of_enabled _ en d hU (by simpa using hlive')

/-- C3, witness: a logger created while usage telemetry was disabled, after
the level change to USAGE propagates, is live, carries the new all-true
snapshot, and accepts a `logUsage` call with no re-registration. -/
theorem onLevelChange_sync_witness :
    usageEnabledLogger.isDisposed = false
    ∧ usageEnabledLogger.telemetryEnablements = ⟨true, true⟩
    ∧ usageEnabledLogger.logUsage "event" none ≠ [] := by
  have h := onLevelChange_sync coordWithDisabledLogger .USAGE
    (by decide) ("sample.ext", usageEnabledLogger) (by decide)
  exact ⟨h.1, h.2.1.trans rfl, h.2.2 rfl "event" none⟩

/-- C4, counterexample: the claim that `onDidChangeTelemetryEnabled` fires
exactly when the derived is-usage-enabled boolean changes is false on the
code, which instead compares `getTelemetryConfiguration()` before and after.
With product configuration `usage := false` and a level change NONE → USAGE,
the derived `isUsageEnabled` stays false across the call, yet the
`didChangeTelemetryEnabled` event fires. -/
theorem levelChange_enabled_event_counterexample :
    ((usageOptOutCoord.getTelemetryDetails).isUsageEnabled = false)
    ∧ (((usageOptOutCoord.onDidChangeTelemetryLevel .USAGE).1.getTelemetryDetails).isUsageEnabled
        = false)
    ∧ (usageOptOutCoord.onDidChangeTelemetryLevel .USAGE).2
      = [CoordEvent.didChangeTelemetryEnabled true,
         CoordEvent.didChangeTelemetryConfiguration ⟨true, true, false⟩] :=
  ⟨rfl, rfl, rfl⟩

/-- C4, amended: each `$onDidChangeTelemetryLevel` call fires
`onDidChangeTelemetryEnabled` exactly when `getTelemetryConfiguration()`
(the level-equals-USAGE boolean, which ignores the product configuration)
changes across the call, always fires `onDidChangeTelemetryConfiguration`
exactly once, in that fixed relative order, and both only after all
per-logger enablement pushes. -/
theorem onLevelChange_event_order (s : ExtHostTelemetry) (lv : TelemetryLevel) :
    ∃ pushes : List CoordEvent,
      (∀ ev ∈ pushes, ∃ k, ev = CoordEvent.loggerEnableStatesChanged k)
      ∧ (s.onDidChangeTelemetryLevel lv).2
        = pushes
          ++ (if s.getTelemetryConfiguration
                != (s.onDidChangeTelemetryLevel lv).1.getTelemetryConfiguration
              then [CoordEvent.didChangeTelemetryEnabled
                      (s.onDidChangeTelemetryLevel lv).1.getTelemetryConfiguration]
              else [])
          ++ [CoordEvent.didChangeTelemetryConfiguration
                (s.onDidChangeTelemetryLevel lv).1.getTelemetryDetails] := by
  refine ⟨_, ?_, rfl⟩
  intro ev hev
  simp only [List.mem_filterMap] at hev
  obtain ⟨a, _, ha⟩ := hev
  by_cases h : a.2.2
  · simp only [h, if_true, Option.some.injEq] at ha
    exact ⟨a.1, ha.symm⟩
  · simp only [h] at ha
    simp at ha

/-- C5: when a per-logger additional static property and a builtin common
property share a key (and the payload itself does not carry that key, the
builtins not being suppressed), the pipeline emits the additional property's
value for that key: properties mixed in later never overwrite ones already
present. -/
theorem mixIn_additional_precedence (l : ExtHostTelemetryLogger)
    (data aps : Props) (k : String) (v : TVal)
    (hadd : l.additionalCommonProperties = some aps)
    (hv : getProp aps k = some v)
    (hbuiltin : l.ignoreBuiltinCommonProperties = false)
    (hdata : getProp data k = none) :
    ∃ out, l.mixInCommonPropsAndCleanData (.flat data) = .flat out
      ∧ getProp out k = some v := by
  have h1 : getProp (cleanData data) k = none := by
    rw [getProp_cleanData, hdata]; rfl
  simp only [ExtHostTelemetryLogger.mixInCommonPropsAndCleanData, hadd, hbuiltin,
    Bool.not_false, if_true]
  refine ⟨_, rfl, ?_⟩
  exact getProp_some_mixin _ _ _ _ (by rw [getProp_none_mixin _ _ _ h1]; exact hv)

/-- C5, witness: additional `foo = 1` against builtin `foo = 2` emits
`foo = 1`. -/
theorem mixIn_additional_precedence_witness :
    ∃ out, overlapLogger.mixInCommonPropsAndCleanData (.flat []) = .flat out
      ∧ getProp out "foo" = some (.num 1) :=
  mixIn_additional_precedence overlapLogger [] [("foo", .num 1)] "foo" (.num 1)
    rfl rfl rfl rfl

/-- C6: disposal is terminal and idempotent.  After one `dispose()`, the
logger is disposed, every `logUsage` and `logError` call produces no effect
at all (in particular it invokes no sender entry point; the operations are
total functions, so nothing is thrown), and a second `dispose()` returns the
state unchanged with no effects — in particular it never invokes `flush` a
second time. -/
theorem dispose_terminal (l : ExtHostTelemetryLogger) :
    ((l.dispose).1.isDisposed = true)
    ∧ (∀ en d, (l.dispose).1.logUsage en d = [])
    ∧ (∀ arg d, (l.dispose).1.logError arg d = [])
    ∧ (l.dispose).1.dispose = ((l.dispose).1, []) := by
  have hsender : (l.dispose).1.sender = none := by
    by_cases h : l.sender.any (·.hasFlush) <;>
      simp [ExtHostTelemetryLogger.dispose, h]
  have hx : ∀ x : ExtHostTelemetryLogger, x.sender = none → x.dispose = (x, []) := by
    intro x hxs
    cases x
    simp_all [ExtHostTelemetryLogger.dispose]
  refine ⟨?_, ?_, ?_, hx _ hsender⟩
  · simp [ExtHostTelemetryLogger.isDisposed, hsender]
  · intro en d
    simp [ExtHostTelemetryLogger.logUsage, ExtHostTelemetryLogger.logEvent, hsender]
  · intro arg d
    simp [ExtHostTelemetryLogger.logError, hsender]

/-- C7, code evaluated at the failing input: on a live, fully enabled logger
in logging-only mode, `logUsage` and string-`logError` only write to the
trace sink as the spec says, but `logError` with a structured error invokes
the sender's `sendErrorData` transmit entry point — `logError`'s structured
branch never checks `_inLoggingOnlyMode`, contradicting the mode's
documented "never actually transmitted" semantics (the source itself labels
the mode's output channel "(Not Sent)"). -/
theorem loggingOnly_structured_error_sent :
    loggingOnlyLogger.logError (.err ⟨"boom"⟩) none
      = [LoggerEffect.sendErrorData ⟨"boom"⟩ none]
    ∧ loggingOnlyLogger.logUsage "e" none
      = [LoggerEffect.trace "sample.ext/e" (.flat [])]
    ∧ loggingOnlyLogger.logError (.str "e") none
      = [LoggerEffect.trace "sample.ext/e" (.flat [])] :=
  ⟨rfl, rfl, rfl⟩

/-- C8: for every envelope-shaped payload, the pipeline returns the
measurements component unchanged; redaction and property mixing only build
the new properties component. -/
theorem mixIn_measurements_unchanged (l : ExtHostTelemetryLogger) (ps : Props)
    (ms : List (String × Int)) :
    ∃ out, l.mixInCommonPropsAndCleanData (.envelope ps ms) = .envelope out ms :=
  ⟨_, rfl⟩

/-- C9: the unhandled-error entry point returns false when no logger is
registered under the identity; returns false and deletes the registry entry
when the registered logger is disposed; returns false without any logging
when the live logger opts out via `ignoreUnhandledErrors`; and otherwise
forwards the error through the logger's `logError` path and returns true. -/
theorem onExtensionError_cases (s : ExtHostTelemetry) (k : String) (e : JSError) :
    (getLogger s.telemetryLoggers k = none → s.onExtensionError k e = (s, false, []))
    ∧ (∀ l, getLogger s.telemetryLoggers k = some l → l.isDisposed = true →
        s.onExtensionError k e
          = ({ s with telemetryLoggers := delLogger s.telemetryLoggers k }, false, []))
    ∧ (∀ l, getLogger s.telemetryLoggers k = some l → l.isDisposed = false →
        l.ignoreUnhandledExtHostErrors = true → s.onExtensionError k e = (s, false, []))
    ∧ (∀ l, getLogger s.telemetryLoggers k = some l → l.isDisposed = false →
        l.ignoreUnhandledExtHostErrors = false →
        s.onExtensionError k e = (s, true, l.logError (.err e) none)) := by
  refine ⟨?_, ?_, ?_, ?_⟩
  · intro h
    simp [ExtHostTelemetry.onExtensionError, h]
  · intro l hl hd
    simp [ExtHostTelemetry.onExtensionError, hl, hd]
  · intro l hl hd hig
    simp [ExtHostTelemetry.onExtensionError, hl, hd, hig]
  · intro l hl hd hig
    simp [ExtHostTelemetry.onExtensionError, hl, hd, hig]

/-- C9, witness: with an empty registry the entry point reports
"not handled" and changes nothing. -/
theorem onExtensionError_cases_witness :
    emptyCoord.onExtensionError "sample.ext" ⟨"boom"⟩ = (emptyCoord, false, []) :=
  (onExtensionError_cases emptyCoord "sample.ext" ⟨"boom"⟩).1 rfl

/-- C10: for a live, non-opted-out logger whose cached `isErrorsEnabled` is
false, the unhandled-error entry point still returns true, while the
forwarded `logError` call produces no effect — the error reaches neither the
sender nor the trace sink. -/
theorem onExtensionError_true_but_dropped (s : ExtHostTelemetry) (k : String)
    (l : ExtHostTelemetryLogger) (e : JSError)
    (hl : getLogger s.telemetryLoggers k = some l)
    (hd : l.isDisposed = false)
    (hig : l.ignoreUnhandledExtHostErrors = false)
    (he : l.telemetryEnablements.isErrorsEnabled = false) :
    (s.onExtensionError k e).2.1 = true ∧ (s.onExtensionError k e).2.2 = [] := by
  have hlog : l.logError (.err e) none = [] := by
    simp [ExtHostTelemetryLogger.logError, he]
  constructor <;> simp [ExtHostTelemetry.onExtensionError, hl, hd, hig, hlog]

/-- C10, witness: a concrete coordinator holding a live logger with errors
disabled reports "handled" with no effects. -/
theorem onExtensionError_true_but_dropped_witness :
    (coordWithErrorsDisabledLogger.onExtensionError "sample.ext" ⟨"boom"⟩).2.1 = true
    ∧ (coordWithErrorsDisabledLogger.onExtensionError "sample.ext" ⟨"boom"⟩).2.2 = [] :=
  onExtensionError_true_but_dropped coordWithErrorsDisabledLogger "sample.ext"
    errorsDisabledLogger ⟨"boom"⟩ rfl rfl rfl rfl

end ExtHostTelemetrySpec
